import Mathlib

/-!
Verification of the MCP connection manager core (LibreChat fork).

This file gives a shallow embedding of the claim-relevant parts of
`packages/api/src/mcp/connection.ts` (class `MCPConnection`) and of the
pool manager (`MCPManager`), and proves or refutes the frozen claims
about them.  Machine state is explicit, JavaScript `Date.now()` values
are natural-number milliseconds, fallible operations return `Option` or
`Except`, and the asynchronous callbacks are modelled as oracles passed
as function arguments.
-/

namespace MCP

/-! ## String containment (JavaScript `String.prototype.includes`) -/

/-- Boolean test that the first character list is an initial segment of
the second. -/
def charsStart : List Char → List Char → Bool
  | [], _ => true
  | _ :: _, [] => false
  | a :: as, b :: bs => a == b && charsStart as bs

/-- Boolean test that the first character list occurs contiguously inside
the second. -/
def charsSub : List Char → List Char → Bool
  | n, [] => n.isEmpty
  | n, c :: cs => charsStart n (c :: cs) || charsSub n cs

/-- `strIncludes hay needle` mirrors JavaScript `hay.includes(needle)`. -/
def strIncludes (hay needle : String) : Bool :=
  charsSub needle.toList hay.toList

/-- JavaScript `toLowerCase`, character by character (ASCII, which is
all the classifier keywords use). -/
def lowerStr (s : String) : String :=
  String.mk (s.toList.map Char.toLower)

theorem charsStart_iff (n l : List Char) : charsStart n l = true ↔ n <+: l := by
  induction n generalizing l with
  | nil => simp [charsStart]
  | cons a as ih =>
    cases l with
    | nil => simp [charsStart]
    | cons b bs =>
      simp only [charsStart, Bool.and_eq_true, beq_iff_eq, ih, List.cons_prefix_cons]

theorem charsSub_iff (n h : List Char) : charsSub n h = true ↔ n <:+: h := by
  induction h with
  | nil =>
    simp only [charsSub, List.isEmpty_iff]
    constructor
    · rintro rfl; exact List.infix_refl _
    · intro hi; exact List.eq_nil_of_infix_nil hi
  | cons c cs ih =>
    simp only [charsSub, Bool.or_eq_true, charsStart_iff, ih, List.infix_cons_iff]

theorem strIncludes_iff (hay needle : String) :
    strIncludes hay needle = true ↔ needle.toList <:+: hay.toList := by
  simp [strIncludes, charsSub_iff]

/-- Transitivity of containment: if `hay` contains `big` and `small`
occurs inside `big`, then `hay` contains `small`. -/
theorem strIncludes_of_sub (hay big small : String)
    (hsub : small.toList <:+: big.toList)
    (h : strIncludes hay big = true) : strIncludes hay small = true := by
  rw [strIncludes_iff] at h ⊢
  exact hsub.trans h

/-! ## Session-error detection (`MCPConnection.detectSessionError`) -/

/-- The three session error kinds of `t.SessionError`. -/
inductive SessionErrorType where
  | session_terminated
  | session_invalid
  | session_expired
deriving DecidableEq, Repr

/-- View of a JavaScript error object as consumed by `detectSessionError`:
`render` is `error.toString()` and `message` is `String(error.message)`
when the object has a `message` field (the code stringifies any value
found there).  Non-object errors are rejected by the guard at the top of
the function and are not modelled. -/
structure SessErr where
  render : String
  message : Option String
deriving DecidableEq, Repr

/-- `errorStr` of the source: the lower-cased `toString` rendering. -/
def fullRendering (e : SessErr) : String := lowerStr e.render

/-- `errorMessage` of the source: the lower-cased `message` field when
present, falling back to the full rendering. -/
def msgRendering (e : SessErr) : String :=
  match e.message with
  | some m => lowerStr m
  | none => lowerStr e.render

/-- Shallow embedding of `MCPConnection.detectSessionError`
(`connection.ts` lines 750-792). -/
def detectSessionError (e : SessErr) : Option SessionErrorType :=
  let errorStr := fullRendering e
  let errorMessage := msgRendering e
  if strIncludes errorStr "404" || strIncludes errorMessage "not found" ||
      strIncludes errorMessage "session not found" ||
      strIncludes errorMessage "session terminated" then
    some .session_terminated
  else if strIncludes errorStr "400" || strIncludes errorMessage "bad request" ||
      strIncludes errorMessage "invalid session" ||
      strIncludes errorMessage "session invalid" then
    some .session_invalid
  else if strIncludes errorMessage "timeout" || strIncludes errorMessage "expired" ||
      strIncludes errorMessage "session expired" then
    some .session_expired
  else
    none

/-- The classifier as the claim words it: every keyword is matched
against BOTH the whole rendering and the message rendering.  Written
from the claim text, to be compared with `detectSessionError`. -/
def claimDetectSessionError (e : SessErr) : Option SessionErrorType :=
  let r := fullRendering e
  let m := msgRendering e
  let hit := fun (kw : String) => strIncludes r kw || strIncludes m kw
  if hit "404" || hit "not found" || hit "session not found" || hit "session terminated" then
    some .session_terminated
  else if hit "400" || hit "bad request" || hit "invalid session" || hit "session invalid" then
    some .session_invalid
  else if hit "timeout" || hit "expired" || hit "session expired" then
    some .session_expired
  else
    none

/-! ## OAuth error classification (`MCPConnection.isOAuthError`,
`MCPManager.isOAuthError` — the two bodies are identical) -/

/-- View of an error object as consumed by `isOAuthError`: `message` is
present exactly when the object has a string-typed `message` field, and
`code` is present exactly when the object has a number-typed `code`
field.  (A `code` field of non-number type compares unequal to 401 and
403 in the source, which coincides with the `none` case here.) -/
structure AuthErr where
  message : Option String
  code : Option Int
deriving DecidableEq, Repr

/-- Shallow embedding of `isOAuthError` (`connection.ts` lines 945-962).
Note the early return: when a string `message` is present, the `code`
field is never consulted. -/
def isOAuthError (e : AuthErr) : Bool :=
  match e.message with
  | some msg => strIncludes msg "401" || strIncludes msg "Non-200 status code (401)"
  | none =>
    match e.code with
    | some c => c == 401 || c == 403
    | none => false

/-- The classifier as the claim words it: message containment and the
numeric code test are independent disjuncts.  Written from the claim
text, to be compared with `isOAuthError`. -/
def claimIsOAuthError (e : AuthErr) : Bool :=
  (match e.message with
    | some msg => strIncludes msg "401" || strIncludes msg "Non-200 status code (401)"
    | none => false) ||
  (match e.code with
    | some c => c == 401 || c == 403
    | none => false)

/-! ## Session extraction (`MCPConnection.extractSessionFromConnection`,
`MCPConnection.isValidSessionId`) -/

/-- A Session Record (`t.MCPSessionInfo`): opaque id, creation time in
milliseconds, terminated flag. -/
structure MCPSessionInfo where
  sessionId : String
  createdAt : Nat
  terminated : Bool
deriving DecidableEq, Repr

/-- Shallow embedding of `MCPConnection.isValidSessionId`
(`connection.ts` lines 146-150): the regular expression
`^[\x21-\x7E]+$`, i.e. a nonempty string of visible ASCII characters. -/
def isValidSessionId (sessionId : String) : Bool :=
  !sessionId.toList.isEmpty &&
    sessionId.toList.all (fun c => 0x21 ≤ c.toNat && c.toNat ≤ 0x7E)

/-- Shallow embedding of `MCPConnection.extractSessionFromConnection`
(`connection.ts` lines 630-654).  The argument is the transport's
`sessionId` property: `some sid` when the property exists and holds the
string `sid`, `none` when it is absent or not a string.  The JavaScript
truthiness test `if (sessionId && ...)` rejects the empty string.
Returns the Session Record created (and announced via `sessionCreated`),
or `none` when no record is created. -/
def extractSessionFromConnection (transportSessionId : Option String) (now : Nat) :
    Option MCPSessionInfo :=
  match transportSessionId with
  | some sessionId =>
    if sessionId.toList.isEmpty then none
    else some { sessionId := sessionId, createdAt := now, terminated := false }
  | none => none

/-- Session extraction as the claim words it: the id must additionally
pass `isValidSessionId`.  Written from the claim text, to be compared
with `extractSessionFromConnection`. -/
def claimExtractSession (transportSessionId : Option String) (now : Nat) :
    Option MCPSessionInfo :=
  match transportSessionId with
  | some sessionId =>
    if isValidSessionId sessionId then
      some { sessionId := sessionId, createdAt := now, terminated := false }
    else none
  | none => none

/-! ## Transport error handler (`MCPConnection.setupTransportErrorHandlers`)
and session recovery (`MCPConnection.handleSessionRecovery`) -/

/-- Observable effects of the `onerror` handler installed by
`setupTransportErrorHandlers`, in the order the code performs them. -/
inductive TransportErrorAction where
  | emitSessionError (t : SessionErrorType)
  | startSessionRecovery (t : SessionErrorType)
  | emitOAuthError
  | emitConnectionError
deriving DecidableEq, Repr

/-- Shallow embedding of the `onerror` handler of
`setupTransportErrorHandlers` (`connection.ts` lines 711-743).
`streamableHTTP` is `isStreamableHTTPOptions(this.options)`;
`hasSession` is whether `this.sessionInfo` is non-null; `code` is the
numeric `code` field of the error object, when present.  Returns the
list of effects, in order. -/
def onTransportError (streamableHTTP hasSession : Bool) (e : SessErr) (code : Option Int) :
    List TransportErrorAction :=
  let rest :=
    (if code == some 401 || code == some 403 then [TransportErrorAction.emitOAuthError] else [])
      ++ [TransportErrorAction.emitConnectionError]
  if streamableHTTP && hasSession then
    match detectSessionError e with
    | some t =>
      if t == .session_terminated || t == .session_expired then
        [.emitSessionError t, .startSessionRecovery t]
      else
        .emitSessionError t :: rest
    | none => rest
  else rest

/-- Steps of a session recovery pass, in order. -/
inductive RecoveryStep where
  | clearSessionRecord
  | closeTransport
  | waitMs (ms : Nat)
  | callConnect
deriving DecidableEq, Repr

/-- Shallow embedding of `MCPConnection.handleSessionRecovery`
(`connection.ts` lines 409-451), success path: `none` when the guard
skips recovery, otherwise the ordered steps performed. -/
def handleSessionRecovery (isReconnecting shouldStopReconnecting isInitializing
    transportPresent : Bool) : Option (List RecoveryStep) :=
  if isReconnecting || shouldStopReconnecting || isInitializing then
    none
  else
    some ([RecoveryStep.clearSessionRecord]
      ++ (if transportPresent then [RecoveryStep.closeTransport] else [])
      ++ [RecoveryStep.waitMs 1000, RecoveryStep.callConnect])

/-! ## Reconnection loop (`MCPConnection.handleReconnection`) -/

/-- `MAX_RECONNECT_ATTEMPTS` of the source. -/
def MAX_RECONNECT_ATTEMPTS : Nat := 3

/-- The backoff of `handleReconnection`:
`(attempt) => Math.min(1000 * Math.pow(2, attempt), 30000)`. -/
def backoffDelay (attempt : Nat) : Nat := min (1000 * 2 ^ attempt) 30000

/-- Result of one run of the reconnect loop: the attempts performed as
`(attempt number, delay waited before it)` pairs in order, the final
value of `reconnectAttempts`, and whether a `connect()` call succeeded. -/
structure ReconnectOutcome where
  trace : List (Nat × Nat)
  finalAttempts : Nat
  succeeded : Bool
deriving DecidableEq, Repr

/-- Shallow embedding of the `while` loop of
`MCPConnection.handleReconnection` (`connection.ts` lines 355-404).
`succ n` tells whether the `connect()` call of attempt `n` succeeds;
`stop n` is the value of `shouldStopReconnecting` observed when
`reconnectAttempts` equals `n`.  The fuel argument dominates the loop:
each iteration increments `reconnectAttempts`, which the guard bounds by
`MAX_RECONNECT_ATTEMPTS`, so fuel `MAX_RECONNECT_ATTEMPTS` is enough
from any start. -/
def reconnectLoop (succ stop : Nat → Bool) : Nat → Nat → ReconnectOutcome
  | 0, attempts => ⟨[], attempts, false⟩
  | fuel + 1, attempts =>
    if attempts < MAX_RECONNECT_ATTEMPTS && !stop attempts then
      let n := attempts + 1
      let d := backoffDelay n
      if succ n then ⟨[(n, d)], 0, true⟩
      else if n == MAX_RECONNECT_ATTEMPTS || stop n then ⟨[(n, d)], n, false⟩
      else
        let r := reconnectLoop succ stop fuel n
        ⟨(n, d) :: r.trace, r.finalAttempts, r.succeeded⟩
    else ⟨[], attempts, false⟩

/-- Shallow embedding of `MCPConnection.handleReconnection`: the guard at
the top returns without starting the loop when the connection is already
reconnecting, stopped, initializing, or blocked on OAuth. -/
def handleReconnection (isReconnecting shouldStopReconnecting isInitializing
    oauthRequired : Bool) (attempts : Nat) (succ stop : Nat → Bool) :
    Option ReconnectOutcome :=
  if isReconnecting || shouldStopReconnecting || isInitializing || oauthRequired then
    none
  else
    some (reconnectLoop succ stop MAX_RECONNECT_ATTEMPTS attempts)

/-! ## Disconnect (`MCPConnection.disconnect`,
`MCPConnection.terminateSession`, `MCPConnection.clearSession`) -/

/-- `t.ConnectionState` of the source. -/
inductive ConnectionState where
  | disconnected
  | connecting
  | connected
  | error
deriving DecidableEq, Repr

/-- The slice of per-connection mutable state that
`MCPConnection.disconnect` touches. -/
structure ConnCore where
  connectionState : ConnectionState
  sessionInfo : Option MCPSessionInfo
  sessionTerminatedFlag : Bool
  transportPresent : Bool
  connectPromisePresent : Bool
  lastConfigUpdate : Nat
deriving DecidableEq, Repr

/-- Shallow embedding of `MCPConnection.clearSession`. -/
def clearSession (s : ConnCore) : ConnCore :=
  match s.sessionInfo with
  | none => s
  | some _ => { s with sessionInfo := none, sessionTerminatedFlag := false }

/-- Shallow embedding of `MCPConnection.terminateSession`
(`connection.ts` lines 660-696).  `urlPresent` is whether `this.url` is
set; `resp` is the HTTP DELETE outcome: `none` when the fetch throws,
`some status` otherwise.  All failure modes are absorbed; a `2xx`
response marks the session terminated. -/
def terminateSession (urlPresent : Bool) (resp : Option Nat) (s : ConnCore) : ConnCore :=
  match s.sessionInfo with
  | none => s
  | some info =>
    if !urlPresent then s
    else
      match resp with
      | none => s
      | some status =>
        if 200 ≤ status && status < 300 then
          { s with sessionInfo := some { info with terminated := true },
                   sessionTerminatedFlag := true }
        else s

/-- Shallow embedding of `MCPConnection.disconnect` (`connection.ts`
lines 794-826).  `streamableHTTP` is `isStreamableHTTPOptions(this.options)`;
`closeOk` is whether `this.client.close()` resolves.  `Except.ok` is the
state when the returned promise resolves; `Except.error` carries the
state after the `finally` clause when `close()` rejects and the error is
re-thrown. -/
def disconnect (streamableHTTP urlPresent : Bool) (termResp : Option Nat) (closeOk : Bool)
    (s : ConnCore) : Except ConnCore ConnCore :=
  let fin := fun (st : ConnCore) =>
    { st with connectPromisePresent := false, lastConfigUpdate := 0 }
  let afterClose : Except ConnCore ConnCore :=
    if s.transportPresent then
      let liveSession :=
        match s.sessionInfo with
        | some info => !info.terminated
        | none => false
      let s1 := if streamableHTTP && liveSession then terminateSession urlPresent termResp s else s
      if closeOk then .ok { s1 with transportPresent := false } else .error s1
    else .ok s
  match afterClose with
  | .error s1 => .error (fin s1)
  | .ok s1 =>
    let s2 := clearSession s1
    if s2.connectionState == ConnectionState.disconnected then .ok (fin s2)
    else .ok (fin { s2 with connectionState := ConnectionState.disconnected })

/-! ## Pool Manager state (`MCPManager`) -/

/-- Lookup in an association list (JavaScript `Map.get`). -/
def alookup {α : Type} (l : List (String × α)) (k : String) : Option α :=
  (l.find? (fun p => p.1 == k)).map Prod.snd

/-- Deletion from an association list (JavaScript `Map.delete`). -/
def aerase {α : Type} (l : List (String × α)) (k : String) : List (String × α) :=
  l.filter (fun p => p.1 != k)

/-- Insert-or-replace in an association list (JavaScript `Map.set`). -/
def aset {α : Type} (l : List (String × α)) (k : String) (v : α) : List (String × α) :=
  if (l.find? (fun p => p.1 == k)).isSome then
    l.map (fun p => if p.1 == k then (k, v) else p)
  else l ++ [(k, v)]

/-- The claim-relevant slice of `MCPManager` state.  Connections are
identified by opaque numeric tags; the maps mirror `threadConnections`,
`threadLastActivity`, `userThreadMapping` and `userLastActivity`. -/
structure PoolState where
  threadConnections : List (String × List (String × Nat))
  threadLastActivity : List (String × Nat)
  userThreadMapping : List (String × List String)
  userLastActivity : List (String × Nat)
deriving DecidableEq, Repr

/-- The loop inside `MCPManager.removeThreadConnection` that removes the
thread from the first user mapping that contains it (and drops the user
entry when its set becomes empty, per `removeUserThreadMapping`), then
breaks. -/
def removeThreadFromFirstUser : List (String × List String) → String →
    List (String × List String)
  | [], _ => []
  | (u, ts) :: rest, t =>
    if ts.contains t then
      let ts2 := ts.filter (fun x => x != t)
      if ts2.isEmpty then rest else (u, ts2) :: rest
    else (u, ts) :: removeThreadFromFirstUser rest t

/-- Shallow embedding of `MCPManager.removeThreadConnection`
(`part_004` lines 693-714). -/
def removeThreadConnection (st : PoolState) (threadId serverName : String) : PoolState :=
  match alookup st.threadConnections threadId with
  | none => st
  | some threadMap =>
    let threadMap2 := aerase threadMap serverName
    if threadMap2.isEmpty then
      { st with
        threadConnections := aerase st.threadConnections threadId,
        threadLastActivity := aerase st.threadLastActivity threadId,
        userThreadMapping := removeThreadFromFirstUser st.userThreadMapping threadId }
    else
      { st with threadConnections := aset st.threadConnections threadId threadMap2 }

/-- Shallow embedding of `MCPManager.disconnectThreadConnection`:
`disconnectOk tid srv` tells whether `connection.disconnect()` resolves;
when it rejects, `removeThreadConnection` is never reached and the state
is unchanged (the caller catches and logs the rejection). -/
def disconnectThreadConnection (disconnectOk : String → String → Bool) (st : PoolState)
    (threadId serverName : String) : PoolState :=
  match alookup st.threadConnections threadId with
  | none => st
  | some threadMap =>
    match alookup threadMap serverName with
    | none => st
    | some _ =>
      if disconnectOk threadId serverName then removeThreadConnection st threadId serverName
      else st

/-- Shallow embedding of `MCPManager.disconnectThreadConnections`
(`part_004` lines 734-755): disconnect every server of the thread
(rejections caught and logged), then unconditionally delete the thread
activity timestamp. -/
def disconnectThreadConnections (disconnectOk : String → String → Bool) (st : PoolState)
    (threadId : String) : PoolState :=
  match alookup st.threadConnections threadId with
  | none => st
  | some threadMap =>
    let servers := threadMap.map Prod.fst
    let st2 := servers.foldl
      (fun acc srv => disconnectThreadConnection disconnectOk acc threadId srv) st
    { st2 with threadLastActivity := aerase st2.threadLastActivity threadId }

/-- Invariant I1 as a decidable check: every thread-id present in
`threadConnections` has a `threadLastActivity` entry and appears in
exactly one user's set of `userThreadMapping`. -/
def I1holds (st : PoolState) : Bool :=
  st.threadConnections.all fun p =>
    (alookup st.threadLastActivity p.1).isSome &&
      ((st.userThreadMapping.filter (fun q => q.2.contains p.1)).length == 1)

/-! ## Idle reclamation (`MCPManager.checkIdleConnections`) -/

/-- `THREAD_CONNECTION_IDLE_TIMEOUT` of the source (60 minutes in ms). -/
def THREAD_CONNECTION_IDLE_TIMEOUT : Nat := 60 * 60 * 1000

/-- `USER_CONNECTION_IDLE_TIMEOUT` of the source (15 minutes in ms). -/
def USER_CONNECTION_IDLE_TIMEOUT : Nat := 15 * 60 * 1000

/-- Shallow embedding of `MCPManager.checkIdleConnections` (`part_004`
lines 347-379).  Returns the thread-ids scheduled for
`disconnectThreadConnections` and the user-ids scheduled for
`disconnectUserThreads`; the disconnections themselves are fired
asynchronously and the pool maps are not mutated by the check itself.
Timestamps are naturals; as in JavaScript, a last-activity value in the
future fails the strict age comparison (truncated subtraction gives 0
where JavaScript gives a negative number). -/
def checkIdleConnections (st : PoolState) (now : Nat) (currentUserId : Option String) :
    List String × List String :=
  ((st.threadLastActivity.filter
      (fun p => decide (now - p.2 > THREAD_CONNECTION_IDLE_TIMEOUT))).map Prod.fst,
   (st.userLastActivity.filter
      (fun p => decide (currentUserId ≠ some p.1) &&
        decide (now - p.2 > USER_CONNECTION_IDLE_TIMEOUT))).map Prod.fst)

/-! ## Outbound empty-result guard
(`MCPConnection.setupTransportDebugHandlers`) -/

/-- `FIVE_MINUTES` of the source (`connection.ts` line 55). -/
def FIVE_MINUTES : Nat := 5 * 60 * 1000

/-- The shape of an outbound JSON-RPC message as tested by the guard:
whether a `result` field exists, whether a `method` field exists, and
the number of keys of `msg.result ?? {}`. -/
structure OutboundMessage where
  hasResult : Bool
  hasMethod : Bool
  resultKeyCount : Nat
deriving DecidableEq, Repr

/-- The test `'result' in msg && !('method' in msg) &&
Object.keys(msg.result ?? {}).length === 0` of the wrapped `send`. -/
def isEmptyResultReply (m : OutboundMessage) : Bool :=
  m.hasResult && !m.hasMethod && m.resultKeyCount == 0

/-- Shallow embedding of the `transport.send` wrapper installed by
`setupTransportDebugHandlers` (`connection.ts` lines 604-624): given the
current `lastPingTime` and `Date.now()`, returns `none` when the wrapper
throws `Empty result`, and `some t` with the new `lastPingTime` value
`t` when the message is allowed through. -/
def sendGuard (lastPingTime now : Nat) (m : OutboundMessage) : Option Nat :=
  if isEmptyResultReply m then
    if now - lastPingTime < FIVE_MINUTES then none
    else some now
  else some lastPingTime

/-- The constructor initializer `this.lastPingTime = Date.now()`
(`connection.ts` line 92): the initial `lastPingTime` is the
construction time, not a sentinel allowing the first empty result. -/
def initialLastPingTime (constructionNow : Nat) : Nat := constructionNow

/-! ## Theorems -/

/-- A keyword that occurs inside a longer keyword is implied by it. -/
theorem strIncludes_mono (hay big small : String)
    (hsub : small.toList <:+: big.toList)
    (h : strIncludes hay big = true) : strIncludes hay small = true :=
  strIncludes_of_sub hay big small hsub h

/-- Claim C1, counterexample: the claim says every keyword is matched
against both the whole rendering and the `message` field, so an error
rendering as `"not found"` with message `"x"` would classify as
`session_terminated`; the code consults the rendering only for `"404"`
and `"400"` and classifies this error as no session error. -/
theorem C1_counterexample :
    detectSessionError { render := "not found", message := some "x" } = none ∧
    claimDetectSessionError { render := "not found", message := some "x" } =
      some SessionErrorType.session_terminated := by
  exact ⟨by decide, by decide⟩

/-- Claim C1, amended: `detectSessionError` matches `"404"` and `"400"`
only against the lower-cased whole rendering, and the textual keywords
only against the lower-cased `message` field (which falls back to the
whole rendering when the error has no `message` field); the categories
are checked in the order terminated, invalid, expired; the keywords
`"session not found"` and `"session expired"` are subsumed by
`"not found"` and `"expired"`. -/
theorem C1_amended (e : SessErr) :
    detectSessionError e =
      (if strIncludes (fullRendering e) "404" = true ∨
          strIncludes (msgRendering e) "not found" = true ∨
          strIncludes (msgRendering e) "session terminated" = true then
        some SessionErrorType.session_terminated
      else if strIncludes (fullRendering e) "400" = true ∨
          strIncludes (msgRendering e) "bad request" = true ∨
          strIncludes (msgRendering e) "invalid session" = true ∨
          strIncludes (msgRendering e) "session invalid" = true then
        some SessionErrorType.session_invalid
      else if strIncludes (msgRendering e) "timeout" = true ∨
          strIncludes (msgRendering e) "expired" = true then
        some SessionErrorType.session_expired
      else none) := by
  have hnf : strIncludes (msgRendering e) "session not found" = true →
      strIncludes (msgRendering e) "not found" = true :=
    fun h => strIncludes_of_sub _ _ _ (by decide) h
  have hse : strIncludes (msgRendering e) "session expired" = true →
      strIncludes (msgRendering e) "expired" = true :=
    fun h => strIncludes_of_sub _ _ _ (by decide) h
  have hT : (strIncludes (fullRendering e) "404" ||
        strIncludes (msgRendering e) "not found" ||
        strIncludes (msgRendering e) "session not found" ||
        strIncludes (msgRendering e) "session terminated") = true ↔
      (strIncludes (fullRendering e) "404" = true ∨
        strIncludes (msgRendering e) "not found" = true ∨
        strIncludes (msgRendering e) "session terminated" = true) := by
    simp only [Bool.or_eq_true]
    constructor
    · rintro (((h | h) | h) | h)
      · exact Or.inl h
      · exact Or.inr (Or.inl h)
      · exact Or.inr (Or.inl (hnf h))
      · exact Or.inr (Or.inr h)
    · rintro (h | h | h)
      · exact Or.inl (Or.inl (Or.inl h))
      · exact Or.inl (Or.inl (Or.inr h))
      · exact Or.inr h
  have hI : (strIncludes (fullRendering e) "400" ||
        strIncludes (msgRendering e) "bad request" ||
        strIncludes (msgRendering e) "invalid session" ||
        strIncludes (msgRendering e) "session invalid") = true ↔
      (strIncludes (fullRendering e) "400" = true ∨
        strIncludes (msgRendering e) "bad request" = true ∨
        strIncludes (msgRendering e) "invalid session" = true ∨
        strIncludes (msgRendering e) "session invalid" = true) := by
    simp [Bool.or_eq_true, or_assoc]
  have hX : (strIncludes (msgRendering e) "timeout" ||
        strIncludes (msgRendering e) "expired" ||
        strIncludes (msgRendering e) "session expired") = true ↔
      (strIncludes (msgRendering e) "timeout" = true ∨
        strIncludes (msgRendering e) "expired" = true) := by
    simp only [Bool.or_eq_true]
    constructor
    · rintro ((h | h) | h)
      · exact Or.inl h
      · exact Or.inr h
      · exact Or.inr (hse h)
    · rintro (h | h)
      · exact Or.inl (Or.inl h)
      · exact Or.inl (Or.inr h)
  show (if _ then _ else if _ then _ else if _ then _ else _) = _
  exact if_congr hT rfl (if_congr hI rfl (if_congr hX rfl rfl))

/-- Claim C4, counterexample: an error whose string `message` does not
mention 401 but whose numeric `code` is 403 is NOT classified as an
authorization error by the code (the string-message branch returns
early, never consulting `code`), while the claim classifies it as one. -/
theorem C4_counterexample :
    isOAuthError { message := some "Forbidden", code := some 403 } = false ∧
    claimIsOAuthError { message := some "Forbidden", code := some 403 } = true := by
  exact ⟨by decide, by decide⟩

/-- Claim C4, amended: an error is classified as an authorization error
exactly when, if it has a string `message` field, that message contains
`"401"` (the literal `"Non-200 status code (401)"` is subsumed, since it
contains `"401"`); only when no string `message` field exists is the
numeric `code` field consulted, the error being an authorization error
when it equals 401 or 403. -/
theorem C4_amended (e : AuthErr) :
    isOAuthError e = true ↔
      ((∃ m, e.message = some m ∧ strIncludes m "401" = true) ∨
        (e.message = none ∧ (e.code = some 401 ∨ e.code = some 403))) := by
  cases hm : e.message with
  | some msg =>
    simp only [isOAuthError, hm, Bool.or_eq_true]
    constructor
    · rintro (h | h)
      · exact Or.inl ⟨msg, rfl, h⟩
      · exact Or.inl ⟨msg, rfl, strIncludes_of_sub _ _ _ (by decide) h⟩
    · rintro (⟨m, hmeq, hinc⟩ | ⟨hnone, _⟩)
      · cases hmeq; exact Or.inl hinc
      · cases hnone
  | none =>
    cases hc : e.code with
    | some c =>
      simp [isOAuthError, hm, hc]
    | none =>
      simp [isOAuthError, hm, hc]

/-- Claim C5, counterexample: the session id `"bad id"` contains a space
(0x20) and fails the printable-ASCII validation, so the claim says no
Session Record is created; the code never invokes `isValidSessionId`
(the helper is dead code) and creates the record anyway. -/
theorem C5_counterexample :
    isValidSessionId "bad id" = false ∧
    claimExtractSession (some "bad id") 7 = none ∧
    extractSessionFromConnection (some "bad id") 7 =
      some { sessionId := "bad id", createdAt := 7, terminated := false } := by
  refine ⟨by decide, ?_, by decide⟩
  simp [claimExtractSession, isValidSessionId]

/-- Claim C5, amended: after a successful handshake on a streamable-http
Connection, a Session Record (id, creation time, terminated=false) is
created and `sessionCreated` emitted exactly when the transport exposes
a string session id that is nonempty; the printable-ASCII pattern is
never checked (`isValidSessionId` is defined but unused), so an id
failing that pattern is not ignored. -/
theorem C5_amended (transportSessionId : Option String) (now : Nat) (info : MCPSessionInfo) :
    extractSessionFromConnection transportSessionId now = some info ↔
      ∃ sid, transportSessionId = some sid ∧ sid ≠ "" ∧
        info = { sessionId := sid, createdAt := now, terminated := false } := by
  cases transportSessionId with
  | none => simp [extractSessionFromConnection]
  | some sid =>
    by_cases he : sid = ""
    · subst he
      simp [extractSessionFromConnection]
    · simp only [extractSessionFromConnection, String.toList]
      rw [if_neg (fun hh => he (by cases sid; simp_all))]
      constructor
      · intro h
        exact ⟨sid, rfl, he, (Option.some_inj.mp h).symm⟩
      · rintro ⟨s, hs, _, hinfo⟩
        cases hs; rw [hinfo]

/-- Claim C2: on a streamable-http connection holding a session, a
transport error classified `session_terminated` or `session_expired`
emits `sessionError` and starts session recovery, with no generic
`connectionChange('error')`; recovery (when not blocked by the
reconnecting/stopped/initializing flags) clears the Session Record,
closes the transport, waits 1000 ms and calls `connect()`; an error
classified `session_invalid` emits `sessionError` without recovery and
falls through to the generic error transition. -/
theorem C2_session_error_dispatch (e : SessErr) (t : SessionErrorType) (code : Option Int)
    (h : detectSessionError e = some t) :
    ((t = SessionErrorType.session_terminated ∨ t = SessionErrorType.session_expired) →
      onTransportError true true e code =
        [TransportErrorAction.emitSessionError t,
         TransportErrorAction.startSessionRecovery t]) ∧
    (t = SessionErrorType.session_invalid →
      (TransportErrorAction.emitSessionError t ∈ onTransportError true true e code ∧
       (∀ t2, TransportErrorAction.startSessionRecovery t2 ∉ onTransportError true true e code) ∧
       TransportErrorAction.emitConnectionError ∈ onTransportError true true e code)) ∧
    handleSessionRecovery false false false true =
      some [RecoveryStep.clearSessionRecord, RecoveryStep.closeTransport,
            RecoveryStep.waitMs 1000, RecoveryStep.callConnect] := by
  refine ⟨?_, ?_, by decide⟩
  · rintro (rfl | rfl) <;>
      simp [onTransportError, h]
  · rintro rfl
    by_cases hc : (code == some 401 || code == some 403) = true <;>
      simp [onTransportError, h, hc]

/-- Witness for C2 at the error rendering `"404"`. -/
theorem C2_witness :
    onTransportError true true { render := "404", message := none } none =
      [TransportErrorAction.emitSessionError SessionErrorType.session_terminated,
       TransportErrorAction.startSessionRecovery SessionErrorType.session_terminated] :=
  (C2_session_error_dispatch { render := "404", message := none }
    SessionErrorType.session_terminated none (by decide)).1 (Or.inl rfl)

/-- Claim C9: when the connection holds no Session Record, the session
branch of the transport error handler is skipped entirely — no
`sessionError` is emitted and no recovery started, even for an error
whose text matches a session pattern (such as `"404"`, which the
classifier maps to `session_terminated`) — and the generic
`connectionChange('error')` transition is taken. -/
theorem C9_no_session_no_recovery (e : SessErr) (code : Option Int) :
    (∀ t, TransportErrorAction.emitSessionError t ∉ onTransportError true false e code) ∧
    (∀ t, TransportErrorAction.startSessionRecovery t ∉ onTransportError true false e code) ∧
    TransportErrorAction.emitConnectionError ∈ onTransportError true false e code ∧
    detectSessionError { render := "404", message := none } =
      some SessionErrorType.session_terminated := by
  by_cases hc : (code == some 401 || code == some 403) = true <;>
    simp [onTransportError, hc] <;> decide

theorem reconnectLoop_trace_length (succ stop : Nat → Bool) :
    ∀ fuel a, (reconnectLoop succ stop fuel a).trace.length ≤ fuel := by
  intro fuel
  induction fuel with
  | zero => intro a; simp [reconnectLoop]
  | succ f ih =>
    intro a
    simp only [reconnectLoop]
    by_cases h0 : (decide (a < MAX_RECONNECT_ATTEMPTS) && !stop a) = true
    · rw [if_pos h0]
      by_cases hs : succ (a + 1) = true
      · rw [if_pos hs]; simp
      · rw [if_neg hs]
        by_cases hl : ((a + 1 == MAX_RECONNECT_ATTEMPTS) || stop (a + 1)) = true
        · rw [if_pos hl]; simp
        · rw [if_neg hl]
          simpa using Nat.succ_le_succ (ih (a + 1))
    · rw [if_neg h0]; simp

theorem reconnectLoop_trace_delay (succ stop : Nat → Bool) :
    ∀ fuel a n d, (n, d) ∈ (reconnectLoop succ stop fuel a).trace → d = backoffDelay n := by
  intro fuel
  induction fuel with
  | zero => intro a n d h; simp [reconnectLoop] at h
  | succ f ih =>
    intro a n d h
    simp only [reconnectLoop] at h
    by_cases h0 : (decide (a < MAX_RECONNECT_ATTEMPTS) && !stop a) = true
    · rw [if_pos h0] at h
      by_cases hs : succ (a + 1) = true
      · rw [if_pos hs] at h
        simp at h
        rw [h.2, h.1]
      · rw [if_neg hs] at h
        by_cases hl : ((a + 1 == MAX_RECONNECT_ATTEMPTS) || stop (a + 1)) = true
        · rw [if_pos hl] at h
          simp at h
          rw [h.2, h.1]
        · rw [if_neg hl] at h
          simp only [List.mem_cons] at h
          rcases h with h | h
          · rw [(Prod.mk.injEq _ _ _ _).mp h |>.2, (Prod.mk.injEq _ _ _ _).mp h |>.1]
          · exact ih (a + 1) n d h
    · rw [if_neg h0] at h; simp at h

/-- Claim C3: the reconnect loop performs at most
`MAX_RECONNECT_ATTEMPTS = 3` attempts, waits `min(1000·2^n, 30000)` ms
before attempt `n`, stops immediately when `shouldStopReconnecting` is
observed or when a `connect()` succeeds (resetting the counter), and no
loop is started while the connection is already reconnecting,
initializing, or blocked on authorization (the `isReconnecting` guard is
what keeps at most one loop active per connection). -/
theorem C3_reconnect_policy (succ stop : Nat → Bool) (a : Nat) :
    ((reconnectLoop succ stop MAX_RECONNECT_ATTEMPTS a).trace.length ≤ 3 ∧
      MAX_RECONNECT_ATTEMPTS = 3) ∧
    (∀ n d, (n, d) ∈ (reconnectLoop succ stop MAX_RECONNECT_ATTEMPTS a).trace →
      d = min (1000 * 2 ^ n) 30000) ∧
    (stop a = true →
      reconnectLoop succ stop MAX_RECONNECT_ATTEMPTS a = ⟨[], a, false⟩) ∧
    (a < MAX_RECONNECT_ATTEMPTS → stop a = false → succ (a + 1) = true →
      reconnectLoop succ stop MAX_RECONNECT_ATTEMPTS a =
        ⟨[(a + 1, backoffDelay (a + 1))], 0, true⟩) ∧
    (∀ stopFlag initFlag oauthFlag,
      handleReconnection true stopFlag initFlag oauthFlag a succ stop = none) ∧
    (∀ reconFlag stopFlag oauthFlag,
      handleReconnection reconFlag stopFlag true oauthFlag a succ stop = none) ∧
    (∀ reconFlag stopFlag initFlag,
      handleReconnection reconFlag stopFlag initFlag true a succ stop = none) := by
  refine ⟨⟨reconnectLoop_trace_length succ stop _ a, rfl⟩,
    fun n d h => reconnectLoop_trace_delay succ stop _ a n d h,
    ?_, ?_, ?_, ?_, ?_⟩
  · intro hstop
    simp [reconnectLoop, hstop]
  · intro hlt hstop hsucc
    simp [reconnectLoop, hlt, hstop, hsucc]
  · intro s i o; simp [handleReconnection]
  · intro r s o; simp [handleReconnection]
  · intro r s i; simp [handleReconnection]

/-- Witness for C3 at a loop that fails twice and then succeeds. -/
theorem C3_witness :
    reconnectLoop (fun n => decide (n = 3)) (fun _ => false) MAX_RECONNECT_ATTEMPTS 0 =
      ⟨[(1, backoffDelay 1), (2, backoffDelay 2), (3, backoffDelay 3)], 0, true⟩ ∧
    reconnectLoop (fun _ => true) (fun _ => true) MAX_RECONNECT_ATTEMPTS 0 =
      ⟨[], 0, false⟩ := by
  refine ⟨by decide, ?_⟩
  exact (C3_reconnect_policy (fun _ => true) (fun _ => true) 0).2.2.1 rfl

@[simp] theorem clearSession_sessionInfo (s : ConnCore) :
    (clearSession s).sessionInfo = none := by
  unfold clearSession; split <;> simp_all

@[simp] theorem clearSession_connectionState (s : ConnCore) :
    (clearSession s).connectionState = s.connectionState := by
  unfold clearSession; split <;> rfl

@[simp] theorem clearSession_transportPresent (s : ConnCore) :
    (clearSession s).transportPresent = s.transportPresent := by
  unfold clearSession; split <;> rfl

@[simp] theorem clearSession_connectPromisePresent (s : ConnCore) :
    (clearSession s).connectPromisePresent = s.connectPromisePresent := by
  unfold clearSession; split <;> rfl

@[simp] theorem clearSession_lastConfigUpdate (s : ConnCore) :
    (clearSession s).lastConfigUpdate = s.lastConfigUpdate := by
  unfold clearSession; split <;> rfl

@[simp] theorem terminateSession_connectionState (u : Bool) (r : Option Nat) (s : ConnCore) :
    (terminateSession u r s).connectionState = s.connectionState := by
  unfold terminateSession
  split
  · rfl
  · split
    · rfl
    · split
      · rfl
      · split <;> rfl

@[simp] theorem terminateSession_transportPresent (u : Bool) (r : Option Nat) (s : ConnCore) :
    (terminateSession u r s).transportPresent = s.transportPresent := by
  unfold terminateSession
  split
  · rfl
  · split
    · rfl
    · split
      · rfl
      · split <;> rfl

@[simp] theorem terminateSession_connectPromisePresent (u : Bool) (r : Option Nat) (s : ConnCore) :
    (terminateSession u r s).connectPromisePresent = s.connectPromisePresent := by
  unfold terminateSession
  split
  · rfl
  · split
    · rfl
    · split
      · rfl
      · split <;> rfl

@[simp] theorem terminateSession_lastConfigUpdate (u : Bool) (r : Option Nat) (s : ConnCore) :
    (terminateSession u r s).lastConfigUpdate = s.lastConfigUpdate := by
  unfold terminateSession
  split
  · rfl
  · split
    · rfl
    · split
      · rfl
      · split <;> rfl

/-- Claim C7: whenever `disconnect()` resolves, the connection state is
`disconnected` and the Session Record is null, and a further
`disconnect()` call (with any transport kind and any oracle outcomes)
resolves again without changing the state; in particular
`connect(); disconnect()` ends `disconnected` with a null Session
Record, since the postcondition holds from any starting state. -/
theorem C7_disconnect (streamableHTTP urlPresent : Bool) (termResp : Option Nat)
    (closeOk : Bool) (s s1 : ConnCore)
    (h : disconnect streamableHTTP urlPresent termResp closeOk s = Except.ok s1) :
    s1.connectionState = ConnectionState.disconnected ∧ s1.sessionInfo = none ∧
      (∀ sh2 up2 tr2 co2, disconnect sh2 up2 tr2 co2 s1 = Except.ok s1) := by
  have key : s1.connectionState = ConnectionState.disconnected ∧ s1.sessionInfo = none ∧
      s1.transportPresent = false ∧ s1.connectPromisePresent = false ∧
      s1.lastConfigUpdate = 0 := by
    simp only [disconnect] at h
    by_cases ht : s.transportPresent = true
    · rw [if_pos ht] at h
      by_cases hc : closeOk = true
      · rw [if_pos hc] at h
        split at h
        · exact Except.noConfusion h
        · rename_i ac x heq
          have hbig := (Except.ok.injEq _ _).mp heq
          split at h
          · rename_i hcond
            rw [beq_iff_eq] at hcond
            simp only [Except.ok.injEq] at h
            subst h
            exact ⟨by simpa using hcond, by simp, by simp [← hbig], rfl, rfl⟩
          · simp only [Except.ok.injEq] at h
            subst h
            exact ⟨rfl, by simp, by simp [← hbig], rfl, rfl⟩
      · rw [if_neg hc] at h
        split at h
        · exact Except.noConfusion h
        · rename_i ac x heq
          exact Except.noConfusion heq
    · rw [if_neg ht] at h
      rw [Bool.not_eq_true] at ht
      split at h
      · rename_i ac x heq
        exact Except.noConfusion heq
      · rename_i ac x heq
        have hsx := (Except.ok.injEq _ _).mp heq
        split at h
        · rename_i hcond
          rw [beq_iff_eq] at hcond
          simp only [Except.ok.injEq] at h
          subst h
          exact ⟨by simpa using hcond, by simp, by simp [← hsx, ht], rfl, rfl⟩
        · simp only [Except.ok.injEq] at h
          subst h
          exact ⟨rfl, by simp, by simp [← hsx, ht], rfl, rfl⟩
  obtain ⟨k1, k2, k3, k4, k5⟩ := key
  refine ⟨k1, k2, fun sh2 up2 tr2 co2 => ?_⟩
  cases s1 with
  | mk st si tf tp cp lcu =>
    simp only at k1 k2 k3 k4 k5
    subst k1; subst k2; subst k3; subst k4; subst k5
    simp [disconnect, clearSession]

/-- Witness for C7: a connected streamable-http connection with a live
session disconnects to the disconnected state with a null record, and a
second disconnect is a no-op. -/
theorem C7_witness :
    ({ connectionState := ConnectionState.disconnected, sessionInfo := none,
       sessionTerminatedFlag := false, transportPresent := false,
       connectPromisePresent := false, lastConfigUpdate := 0 } : ConnCore).connectionState =
        ConnectionState.disconnected ∧
    ({ connectionState := ConnectionState.disconnected, sessionInfo := none,
       sessionTerminatedFlag := false, transportPresent := false,
       connectPromisePresent := false, lastConfigUpdate := 0 } : ConnCore).sessionInfo = none ∧
    (∀ sh2 up2 tr2 co2, disconnect sh2 up2 tr2 co2
      { connectionState := ConnectionState.disconnected, sessionInfo := none,
        sessionTerminatedFlag := false, transportPresent := false,
        connectPromisePresent := false, lastConfigUpdate := 0 } = Except.ok
      { connectionState := ConnectionState.disconnected, sessionInfo := none,
        sessionTerminatedFlag := false, transportPresent := false,
        connectPromisePresent := false, lastConfigUpdate := 0 }) :=
  C7_disconnect true true (some 200) true
    { connectionState := ConnectionState.connected,
      sessionInfo := some { sessionId := "S", createdAt := 0, terminated := false },
      sessionTerminatedFlag := false, transportPresent := true,
      connectPromisePresent := true, lastConfigUpdate := 5 } _ rfl

/-- A pool holding one thread `t1` of user `u1` with a single server
connection, satisfying invariant I1. -/
def poolEx : PoolState :=
  { threadConnections := [("t1", [("srv", 0)])],
    threadLastActivity := [("t1", 5)],
    userThreadMapping := [("u1", ["t1"])],
    userLastActivity := [("u1", 5)] }

/-- Claim C6, evaluation at the failing input: starting from a pool
satisfying I1, a `disconnectThreadConnections("t1")` pass in which the
connection's `disconnect()` rejects leaves `t1` present in
`threadConnections` (the removal step after the failed disconnect is
never reached) while its `threadLastActivity` entry is deleted
unconditionally at the end of the pass — invariant I1 is violated, and
the stranded connection can never be reclaimed by the thread reaper
(which iterates `threadLastActivity`). -/
theorem C6_failing_run :
    I1holds poolEx = true ∧
    I1holds (disconnectThreadConnections (fun _ _ => false) poolEx "t1") = false ∧
    alookup (disconnectThreadConnections (fun _ _ => false) poolEx "t1").threadConnections "t1"
      = some [("srv", 0)] ∧
    alookup (disconnectThreadConnections (fun _ _ => false) poolEx "t1").threadLastActivity "t1"
      = none ∧
    (disconnectThreadConnections (fun _ _ => true) poolEx "t1").threadConnections = [] ∧
    I1holds (disconnectThreadConnections (fun _ _ => true) poolEx "t1") = true := by
  refine ⟨by decide, by decide, by decide, by decide, by decide, by decide⟩

/-- Claim C8: a reclamation pass schedules disconnection exactly for the
threads whose last activity is strictly older than
`THREAD_CONNECTION_IDLE_TIMEOUT` (60 minutes) and for the users other
than the supplied current user whose last activity is strictly older
than `USER_CONNECTION_IDLE_TIMEOUT` (15 minutes); the check itself
mutates no pool state (the disconnections are fired without being
awaited). -/
theorem C8_idle_check (st : PoolState) (now : Nat) (currentUserId : Option String) :
    (∀ t, t ∈ (checkIdleConnections st now currentUserId).1 ↔
      ∃ la, (t, la) ∈ st.threadLastActivity ∧
        now - la > THREAD_CONNECTION_IDLE_TIMEOUT) ∧
    (∀ u, u ∈ (checkIdleConnections st now currentUserId).2 ↔
      ∃ la, (u, la) ∈ st.userLastActivity ∧ currentUserId ≠ some u ∧
        now - la > USER_CONNECTION_IDLE_TIMEOUT) ∧
    THREAD_CONNECTION_IDLE_TIMEOUT = 60 * 60 * 1000 ∧
    USER_CONNECTION_IDLE_TIMEOUT = 15 * 60 * 1000 := by
  refine ⟨?_, ?_, rfl, rfl⟩
  · intro t
    simp only [checkIdleConnections, List.mem_map, List.mem_filter]
    constructor
    · rintro ⟨⟨t2, la⟩, ⟨hmem, hage⟩, rfl⟩
      exact ⟨la, hmem, by simpa using hage⟩
    · rintro ⟨la, hmem, hage⟩
      exact ⟨(t, la), ⟨hmem, by simpa using hage⟩, rfl⟩
  · intro u
    simp only [checkIdleConnections, List.mem_map, List.mem_filter]
    constructor
    · rintro ⟨⟨u2, la⟩, ⟨hmem, hage⟩, rfl⟩
      simp only [Bool.and_eq_true, decide_eq_true_eq] at hage
      exact ⟨la, hmem, hage.1, hage.2⟩
    · rintro ⟨la, hmem, hne, hage⟩
      exact ⟨(u, la), ⟨hmem, by simp [hne, hage]⟩, rfl⟩

/-- Witness for C8 on a pool with one stale thread and one stale user. -/
theorem C8_witness :
    ("t1" ∈ (checkIdleConnections poolEx 4000000 (some "u2")).1 ↔
      ∃ la, ("t1", la) ∈ poolEx.threadLastActivity ∧
        4000000 - la > THREAD_CONNECTION_IDLE_TIMEOUT) ∧
    ("u1" ∈ (checkIdleConnections poolEx 4000000 (some "u2")).2 ↔
      ∃ la, ("u1", la) ∈ poolEx.userLastActivity ∧ some "u2" ≠ some "u1" ∧
        4000000 - la > USER_CONNECTION_IDLE_TIMEOUT) :=
  ⟨(C8_idle_check poolEx 4000000 (some "u2")).1 "t1",
   (C8_idle_check poolEx 4000000 (some "u2")).2.1 "u1"⟩

/-- Claim C10: the empty-result guard compares against `lastPingTime`,
which the constructor initializes to the construction time; hence every
first empty-result reply sent within `FIVE_MINUTES` of construction
makes the wrapped `send` throw `Empty result`, even though no
empty-result reply was previously allowed through. -/
theorem C10_first_empty_result_throws (constructionNow now : Nat) (m : OutboundMessage)
    (hm : isEmptyResultReply m = true)
    (h5 : now - constructionNow < FIVE_MINUTES) :
    sendGuard (initialLastPingTime constructionNow) now m = none := by
  simp [sendGuard, initialLastPingTime, hm, h5]

/-- Witness for C10: an empty-result reply 1 second after construction
throws. -/
theorem C10_witness :
    sendGuard (initialLastPingTime 0) 1000
      { hasResult := true, hasMethod := false, resultKeyCount := 0 } = none :=
  C10_first_empty_result_throws 0 1000
    { hasResult := true, hasMethod := false, resultKeyCount := 0 } (by decide) (by decide)

end MCP
